import Mathlib

/-!
Verification of the gym-clock workout-timer engine.

This file gives a shallow embedding of the timer state machine of
src/src/hooks/useTimer.ts (the pure reducer `timerReducer` together with its
initial state) and proves properties of it.  JavaScript numbers are modelled
as `Int`: every quantity the reducer manipulates (milliseconds, seconds,
rounds, minutes) is integral in all executions of interest.  JavaScript's
`Math.floor(a / b)` is floor division (`Int.fdiv`) and JavaScript's `%` is the
truncated remainder (`Int.tmod`), which agree with Euclidean `/` and `%` on
non-negative operands.
-/

/-- The six timer modes (type TimerMode in src/types). -/
inductive TimerMode where
  | clock
  | stopwatch
  | countdown
  | tabata
  | emom
  | amrap
deriving DecidableEq, Repr

/-- Countdown settings: totalTime in seconds. -/
structure CountdownSettings where
  totalTime : Int
deriving DecidableEq, Repr

/-- Tabata settings: workTime and restTime in seconds, number of rounds. -/
structure TabataSettings where
  workTime : Int
  restTime : Int
  rounds : Int
deriving DecidableEq, Repr

/-- EMOM settings: intervalTime in seconds (usually 60) and totalMinutes. -/
structure EmomSettings where
  intervalTime : Int
  totalMinutes : Int
deriving DecidableEq, Repr

/-- AMRAP settings: totalTime in seconds. -/
structure AmrapSettings where
  totalTime : Int
deriving DecidableEq, Repr

/-- The engine state (interface TimerState in src/types). -/
structure TimerState where
  mode : TimerMode
  isRunning : Bool
  currentTime : Int
  countdown : CountdownSettings
  tabata : TabataSettings
  emom : EmomSettings
  amrap : AmrapSettings
  currentRound : Int
  isWorkPhase : Bool
  currentMinute : Int
  countdownIntro : Int
  isInCountdownIntro : Bool
  introTimeRemaining : Int
deriving DecidableEq, Repr

/-- The actions dispatched to the reducer (type TimerAction in useTimer.ts). -/
inductive TimerAction where
  | setMode (mode : TimerMode)
  | start
  | stop
  | reset
  | tick (delta : Int)
  | setCountdown (settings : CountdownSettings)
  | setTabata (settings : TabataSettings)
  | setEmom (settings : EmomSettings)
  | setAmrap (settings : AmrapSettings)
  | setCountdownIntro (seconds : Int)
deriving DecidableEq, Repr

/-- JavaScript Math.floor(a / b): floor division on integers. -/
def jsFloorDiv (a b : Int) : Int := Int.fdiv a b

/-- JavaScript a % b: remainder with the sign of the dividend. -/
def jsRem (a b : Int) : Int := Int.tmod a b

/-- The initial state of useTimer (initialState in useTimer.ts). -/
def initialState : TimerState :=
  { mode := .stopwatch
    isRunning := false
    currentTime := 0
    countdown := { totalTime := 180 }
    tabata := { workTime := 20, restTime := 10, rounds := 8 }
    emom := { intervalTime := 60, totalMinutes := 10 }
    amrap := { totalTime := 600 }
    currentRound := 1
    isWorkPhase := true
    currentMinute := 1
    countdownIntro := 10
    isInCountdownIntro := false
    introTimeRemaining := 0 }

/-- The pure reducer timerReducer of useTimer.ts.  Each case mirrors the
corresponding case of the TypeScript switch; the TICK case first handles the
countdown-intro phase and then the mode-specific completion and phase logic
(the source's sequence of mutually exclusive if-blocks on state.mode is
rendered as a match on the mode). -/
def timerReducer (state : TimerState) (action : TimerAction) : TimerState :=
  match action with
  | .setMode mode =>
      { state with
        mode := mode
        isRunning := false
        currentTime := 0
        currentRound := 1
        isWorkPhase := true
        currentMinute := 1
        isInCountdownIntro := false
        introTimeRemaining := 0 }
  | .start =>
      let supportsIntro : Bool := !(state.mode == .clock || state.mode == .stopwatch)
      let hasIntro : Bool := decide (state.countdownIntro > 0) && supportsIntro
      if hasIntro && decide (state.currentTime = 0) then
        { state with
          isRunning := true
          isInCountdownIntro := true
          introTimeRemaining := state.countdownIntro * 1000 }
      else
        { state with isRunning := true }
  | .stop => { state with isRunning := false }
  | .reset =>
      { state with
        isRunning := false
        currentTime := 0
        currentRound := 1
        isWorkPhase := true
        currentMinute := 1
        isInCountdownIntro := false
        introTimeRemaining := 0 }
  | .tick delta =>
      if state.isInCountdownIntro then
        let newIntroRemaining := state.introTimeRemaining - delta
        if newIntroRemaining ≤ 0 then
          { state with
            isInCountdownIntro := false
            introTimeRemaining := 0
            currentTime := 0 }
        else
          { state with introTimeRemaining := newIntroRemaining }
      else
        let newTime := state.currentTime + delta
        let newState := { state with currentTime := newTime }
        match state.mode with
        | .countdown =>
            let remaining := state.countdown.totalTime * 1000 - newTime
            if remaining ≤ 0 then
              { state with
                currentTime := state.countdown.totalTime * 1000
                isRunning := false }
            else
              newState
        | .tabata =>
            let cycleTime := (state.tabata.workTime + state.tabata.restTime) * 1000
            let currentCycleTime := jsRem newTime cycleTime
            let currentRound := jsFloorDiv newTime cycleTime + 1
            let isWorkPhase : Bool := decide (currentCycleTime < state.tabata.workTime * 1000)
            if currentRound > state.tabata.rounds then
              { state with
                currentTime := state.tabata.rounds * cycleTime
                isRunning := false
                currentRound := state.tabata.rounds
                isWorkPhase := false }
            else
              { newState with currentRound := currentRound, isWorkPhase := isWorkPhase }
        | .emom =>
            let currentMinute := jsFloorDiv newTime 60000 + 1
            if currentMinute > state.emom.totalMinutes then
              { state with
                currentTime := state.emom.totalMinutes * 60000
                isRunning := false
                currentMinute := state.emom.totalMinutes }
            else
              { newState with currentMinute := currentMinute }
        | .amrap =>
            if newTime ≥ state.amrap.totalTime * 1000 then
              { state with
                currentTime := state.amrap.totalTime * 1000
                isRunning := false }
            else
              newState
        | _ => newState
  | .setCountdown settings => { state with countdown := settings }
  | .setTabata settings => { state with tabata := settings }
  | .setEmom settings => { state with emom := settings }
  | .setAmrap settings => { state with amrap := settings }
  | .setCountdownIntro seconds => { state with countdownIntro := seconds }

/-- The completion boundary of the active mode, in milliseconds (a statement
helper; modes without a boundary get the unused value 0). -/
def modeBoundary (s : TimerState) : Int :=
  match s.mode with
  | .countdown => s.countdown.totalTime * 1000
  | .tabata => s.tabata.rounds * ((s.tabata.workTime + s.tabata.restTime) * 1000)
  | .emom => s.emom.totalMinutes * 60000
  | .amrap => s.amrap.totalTime * 1000
  | _ => 0

/-- The modes that have a completion boundary. -/
def boundedMode (m : TimerMode) : Prop :=
  m = .countdown ∨ m = .tabata ∨ m = .emom ∨ m = .amrap

instance (m : TimerMode) : Decidable (boundedMode m) := by
  unfold boundedMode
  infer_instance

/-- All six per-mode settings fields hold positive integers. -/
def posSettings (s : TimerState) : Prop :=
  1 ≤ s.countdown.totalTime ∧
  1 ≤ s.tabata.workTime ∧ 1 ≤ s.tabata.restTime ∧ 1 ≤ s.tabata.rounds ∧
  1 ≤ s.emom.totalMinutes ∧ 1 ≤ s.amrap.totalTime

instance (s : TimerState) : Decidable (posSettings s) := by
  unfold posSettings
  infer_instance

/-- Concrete Tabata state used for the boundary examples: 20s work, 10s rest,
2 rounds, running, at the start of the main timer. -/
def tabataSample : TimerState :=
  { initialState with
    mode := .tabata
    isRunning := true
    tabata := { workTime := 20, restTime := 10, rounds := 2 } }

/-- Concrete EMOM state for the boundary examples: 3 total minutes, running,
with a deliberately non-standard intervalTime of 37 seconds. -/
def emomSample : TimerState :=
  { initialState with
    mode := .emom
    isRunning := true
    emom := { intervalTime := 37, totalMinutes := 3 } }

/-- Concrete countdown-mode state with a 5 second intro, stopped at zero. -/
def introSample : TimerState :=
  { initialState with
    mode := .countdown
    countdownIntro := 5 }

/-- A countdown-mode state paused mid-run at 3000ms. -/
def pausedSample : TimerState :=
  { initialState with mode := .countdown, currentTime := 3000 }

/-- A stopwatch state, stopped, with 1000ms on the clock. -/
def stoppedStopwatch : TimerState :=
  { initialState with currentTime := 1000 }

/-- The intro state obtained from introSample part-way through the intro:
3000ms of the 5000ms intro remain. -/
def midIntroSample : TimerState :=
  { introSample with
    isRunning := true
    isInCountdownIntro := true
    introTimeRemaining := 3000 }

/-- The condition under which START enters the countdown intro. -/
def startIntroCond (s : TimerState) : Prop :=
  s.mode ≠ .clock ∧ s.mode ≠ .stopwatch ∧ 0 < s.countdownIntro ∧ s.currentTime = 0

instance (s : TimerState) : Decidable (startIntroCond s) := by
  unfold startIntroCond
  infer_instance

/-- A Tabata state mid-workout: round 5 of 8, 125s elapsed. -/
def roundSample : TimerState :=
  { initialState with mode := .tabata, currentTime := 125000, currentRound := 5 }

/-- The cached progress fields are in range and the state is otherwise
well-formed: non-negative elapsed time, currentRound in [1, rounds],
currentMinute in [1, totalMinutes], positive settings. -/
def rangeInv (s : TimerState) : Prop :=
  0 ≤ s.currentTime ∧
  1 ≤ s.currentRound ∧ s.currentRound ≤ s.tabata.rounds ∧
  1 ≤ s.currentMinute ∧ s.currentMinute ≤ s.emom.totalMinutes ∧
  posSettings s

instance (s : TimerState) : Decidable (rangeInv s) := by
  unfold rangeInv
  infer_instance

/-- The side conditions under which a command keeps the cached progress fields
in range: Tick deltas are non-negative, settings payloads are positive, and a
Tabata or EMOM settings replacement does not lower the bound below the cached
progress value. -/
def admissible (s : TimerState) (a : TimerAction) : Prop :=
  match a with
  | .tick delta => 0 ≤ delta
  | .setCountdown c => 1 ≤ c.totalTime
  | .setTabata t => 1 ≤ t.workTime ∧ 1 ≤ t.restTime ∧ s.currentRound ≤ t.rounds
  | .setEmom e => s.currentMinute ≤ e.totalMinutes
  | .setAmrap a2 => 1 ≤ a2.totalTime
  | _ => True

instance (s : TimerState) (a : TimerAction) : Decidable (admissible s a) := by
  cases a <;> (dsimp only [admissible]; infer_instance)

theorem tick_intro_eq (s : TimerState) (delta : Int)
    (hi : s.isInCountdownIntro = true) :
    timerReducer s (.tick delta) =
      if s.introTimeRemaining - delta ≤ 0 then
        { s with isInCountdownIntro := false, introTimeRemaining := 0, currentTime := 0 }
      else
        { s with introTimeRemaining := s.introTimeRemaining - delta } := by
  obtain ⟨mo, run, ct, cd, tb, em, am, cr, wp, cm, ci, inIntro, rem⟩ := s
  subst hi
  rfl

theorem tick_countdown_eq (s : TimerState) (delta : Int)
    (hi : s.isInCountdownIntro = false) (hm : s.mode = .countdown) :
    timerReducer s (.tick delta) =
      if s.countdown.totalTime * 1000 - (s.currentTime + delta) ≤ 0 then
        { s with currentTime := s.countdown.totalTime * 1000, isRunning := false }
      else
        { s with currentTime := s.currentTime + delta } := by
  obtain ⟨mo, run, ct, cd, tb, em, am, cr, wp, cm, ci, inIntro, rem⟩ := s
  subst hi hm
  rfl

theorem tick_tabata_eq (s : TimerState) (delta : Int)
    (hi : s.isInCountdownIntro = false) (hm : s.mode = .tabata) :
    timerReducer s (.tick delta) =
      (if jsFloorDiv (s.currentTime + delta) ((s.tabata.workTime + s.tabata.restTime) * 1000)
            + 1 > s.tabata.rounds then
         { s with
           currentTime := s.tabata.rounds * ((s.tabata.workTime + s.tabata.restTime) * 1000)
           isRunning := false
           currentRound := s.tabata.rounds
           isWorkPhase := false }
       else
         { s with
           currentTime := s.currentTime + delta
           currentRound :=
             jsFloorDiv (s.currentTime + delta) ((s.tabata.workTime + s.tabata.restTime) * 1000)
               + 1
           isWorkPhase :=
             decide (jsRem (s.currentTime + delta)
               ((s.tabata.workTime + s.tabata.restTime) * 1000) < s.tabata.workTime * 1000) }) := by
  obtain ⟨mo, run, ct, cd, tb, em, am, cr, wp, cm, ci, inIntro, rem⟩ := s
  subst hi hm
  rfl

theorem tick_emom_eq (s : TimerState) (delta : Int)
    (hi : s.isInCountdownIntro = false) (hm : s.mode = .emom) :
    timerReducer s (.tick delta) =
      (if jsFloorDiv (s.currentTime + delta) 60000 + 1 > s.emom.totalMinutes then
         { s with
           currentTime := s.emom.totalMinutes * 60000
           isRunning := false
           currentMinute := s.emom.totalMinutes }
       else
         { s with
           currentTime := s.currentTime + delta
           currentMinute := jsFloorDiv (s.currentTime + delta) 60000 + 1 }) := by
  obtain ⟨mo, run, ct, cd, tb, em, am, cr, wp, cm, ci, inIntro, rem⟩ := s
  subst hi hm
  rfl

theorem tick_amrap_eq (s : TimerState) (delta : Int)
    (hi : s.isInCountdownIntro = false) (hm : s.mode = .amrap) :
    timerReducer s (.tick delta) =
      (if s.currentTime + delta ≥ s.amrap.totalTime * 1000 then
         { s with currentTime := s.amrap.totalTime * 1000, isRunning := false }
       else
         { s with currentTime := s.currentTime + delta }) := by
  obtain ⟨mo, run, ct, cd, tb, em, am, cr, wp, cm, ci, inIntro, rem⟩ := s
  subst hi hm
  rfl

theorem tick_stopwatch_eq (s : TimerState) (delta : Int)
    (hi : s.isInCountdownIntro = false) (hm : s.mode = .stopwatch) :
    timerReducer s (.tick delta) = { s with currentTime := s.currentTime + delta } := by
  obtain ⟨mo, run, ct, cd, tb, em, am, cr, wp, cm, ci, inIntro, rem⟩ := s
  subst hi hm
  rfl

theorem tick_clock_eq (s : TimerState) (delta : Int)
    (hi : s.isInCountdownIntro = false) (hm : s.mode = .clock) :
    timerReducer s (.tick delta) = { s with currentTime := s.currentTime + delta } := by
  obtain ⟨mo, run, ct, cd, tb, em, am, cr, wp, cm, ci, inIntro, rem⟩ := s
  subst hi hm
  rfl

theorem start_eq (s : TimerState) :
    timerReducer s .start =
      if startIntroCond s then
        { s with
          isRunning := true
          isInCountdownIntro := true
          introTimeRemaining := s.countdownIntro * 1000 }
      else
        { s with isRunning := true } := by
  by_cases h : startIntroCond s
  · obtain ⟨h1, h2, h3, h4⟩ := h
    rw [if_pos ⟨h1, h2, h3, h4⟩]
    simp only [timerReducer]
    rw [if_pos]
    simp only [Bool.and_eq_true, Bool.not_eq_true', Bool.or_eq_false_iff,
      beq_eq_false_iff_ne, decide_eq_true_eq]
    exact ⟨⟨h3, h1, h2⟩, h4⟩
  · rw [if_neg h]
    simp only [timerReducer]
    rw [if_neg]
    simp only [Bool.and_eq_true, Bool.not_eq_true', Bool.or_eq_false_iff,
      beq_eq_false_iff_ne, decide_eq_true_eq]
    intro hc
    exact h ⟨hc.1.2.1, hc.1.2.2, hc.1.1, hc.2⟩

/-- C1: Tabata TICK arithmetic.  For every Tabata-mode state not in intro with
positive work/rest/rounds and delta at least 0, the reducer computes
e = currentTime + delta, cycleMs = (workTime + restTime) * 1000,
round = floor(e / cycleMs) + 1 and isWorkPhase = (e rem cycleMs) < workTime * 1000
(the remainder being JavaScript's, which agrees with mod on non-negative e);
if round > rounds it clamps to rounds * cycleMs with isRunning = false,
currentRound = rounds and isWorkPhase = false, else it stores e, round and
isWorkPhase.  In particular for workTime 20, restTime 10, rounds 2: at 19999
work/round 1, at 20000 rest/round 1, at 59999 rest/round 2, and at 60000 the
timer stops clamped at 60000 with round 2 and rest phase. -/
theorem tabata_tick_spec (s : TimerState) (delta : Int)
    (hm : s.mode = .tabata) (hi : s.isInCountdownIntro = false)
    (hw : 1 ≤ s.tabata.workTime) (hr : 1 ≤ s.tabata.restTime)
    (hn : 1 ≤ s.tabata.rounds) (hd : 0 ≤ delta) :
    (if jsFloorDiv (s.currentTime + delta) ((s.tabata.workTime + s.tabata.restTime) * 1000)
          + 1 > s.tabata.rounds then
       timerReducer s (.tick delta) =
         { s with
           currentTime := s.tabata.rounds * ((s.tabata.workTime + s.tabata.restTime) * 1000)
           isRunning := false
           currentRound := s.tabata.rounds
           isWorkPhase := false }
     else
       timerReducer s (.tick delta) =
         { s with
           currentTime := s.currentTime + delta
           currentRound :=
             jsFloorDiv (s.currentTime + delta) ((s.tabata.workTime + s.tabata.restTime) * 1000)
               + 1
           isWorkPhase :=
             decide (jsRem (s.currentTime + delta)
               ((s.tabata.workTime + s.tabata.restTime) * 1000) < s.tabata.workTime * 1000) }) ∧
    ((timerReducer tabataSample (.tick 19999)).isWorkPhase = true ∧
     (timerReducer tabataSample (.tick 19999)).currentRound = 1) ∧
    ((timerReducer tabataSample (.tick 20000)).isWorkPhase = false ∧
     (timerReducer tabataSample (.tick 20000)).currentRound = 1) ∧
    ((timerReducer tabataSample (.tick 59999)).isWorkPhase = false ∧
     (timerReducer tabataSample (.tick 59999)).currentRound = 2) ∧
    ((timerReducer tabataSample (.tick 60000)).isRunning = false ∧
     (timerReducer tabataSample (.tick 60000)).currentTime = 60000 ∧
     (timerReducer tabataSample (.tick 60000)).currentRound = 2 ∧
     (timerReducer tabataSample (.tick 60000)).isWorkPhase = false) := by
  refine ⟨?_, by decide, by decide, by decide, by decide⟩
  by_cases hc : jsFloorDiv (s.currentTime + delta)
      ((s.tabata.workTime + s.tabata.restTime) * 1000) + 1 > s.tabata.rounds
  · rw [if_pos hc, tick_tabata_eq s delta hi hm, if_pos hc]
  · rw [if_neg hc, tick_tabata_eq s delta hi hm, if_neg hc]

/-- C1 witness: the general Tabata equation instantiated at the sample state
with delta 19999. -/
theorem tabata_tick_spec_witness :
    (timerReducer tabataSample (.tick 19999)).isWorkPhase = true ∧
    (timerReducer tabataSample (.tick 19999)).currentRound = 1 :=
  (tabata_tick_spec tabataSample 19999 rfl rfl (by decide) (by decide) (by decide)
    (by decide)).2.1

/-- C3: intro TICK.  While isInCountdownIntro is true, a Tick subtracts delta
from introTimeRemaining; when the result is at most 0 the state leaves the
intro with introTimeRemaining = 0 and currentTime = 0 (intro overshoot is
discarded), otherwise the decremented value is stored and currentTime is
untouched.  Concretely, starting a countdown with a 5 second intro and
delivering Ticks of 3000ms and 2000ms (exactly 5000ms total) ends the intro
with currentTime = 0. -/
theorem intro_tick_spec (s : TimerState) (delta : Int)
    (hi : s.isInCountdownIntro = true) :
    (if s.introTimeRemaining - delta ≤ 0 then
       timerReducer s (.tick delta) =
         { s with isInCountdownIntro := false, introTimeRemaining := 0, currentTime := 0 }
     else
       timerReducer s (.tick delta) =
         { s with introTimeRemaining := s.introTimeRemaining - delta }) ∧
    ((timerReducer introSample .start).isInCountdownIntro = true ∧
     (timerReducer introSample .start).introTimeRemaining = 5000 ∧
     (timerReducer introSample .start).currentTime = 0 ∧
     (timerReducer (timerReducer (timerReducer introSample .start) (.tick 3000))
         (.tick 2000)).isInCountdownIntro = false ∧
     (timerReducer (timerReducer (timerReducer introSample .start) (.tick 3000))
         (.tick 2000)).introTimeRemaining = 0 ∧
     (timerReducer (timerReducer (timerReducer introSample .start) (.tick 3000))
         (.tick 2000)).currentTime = 0) := by
  refine ⟨?_, by decide⟩
  rw [tick_intro_eq s delta hi]
  split <;> rfl

/-- C3 witness: the intro equation instantiated at the state reached after
Start on the 5 second intro sample, with delta 3000. -/
theorem intro_tick_spec_witness :
    timerReducer (timerReducer introSample .start) (.tick 3000) =
      { timerReducer introSample .start with introTimeRemaining := 2000 } := by
  have h := (intro_tick_spec (timerReducer introSample .start) 3000 rfl).1
  rw [if_neg (by decide)] at h
  exact h

/-- C4: START.  Start always sets isRunning = true; it enters the intro
(isInCountdownIntro = true, introTimeRemaining = countdownIntro * 1000)
exactly when the mode is neither clock nor stopwatch, countdownIntro is
positive, and currentTime = 0; otherwise the state only gains isRunning = true.
Starting a paused state with currentTime > 0 never sets isInCountdownIntro
and leaves currentTime unchanged. -/
theorem start_spec (s : TimerState) :
    (timerReducer s .start).isRunning = true ∧
    (startIntroCond s →
      timerReducer s .start =
        { s with
          isRunning := true
          isInCountdownIntro := true
          introTimeRemaining := s.countdownIntro * 1000 }) ∧
    (¬ startIntroCond s → timerReducer s .start = { s with isRunning := true }) ∧
    (0 < s.currentTime → s.isInCountdownIntro = false →
      (timerReducer s .start).isInCountdownIntro = false ∧
      (timerReducer s .start).currentTime = s.currentTime) := by
  refine ⟨?_, ?_, ?_, ?_⟩
  · rw [start_eq]
    split <;> rfl
  · intro h
    rw [start_eq, if_pos h]
  · intro h
    rw [start_eq, if_neg h]
  · intro ht hin
    have hnc : ¬ startIntroCond s := by
      intro hc
      rw [hc.2.2.2] at ht
      exact lt_irrefl 0 ht
    rw [start_eq, if_neg hnc]
    exact ⟨hin, rfl⟩

/-- C4 witness: Start on a countdown state paused at 3000ms resumes without
re-entering the intro. -/
theorem start_spec_witness :
    timerReducer pausedSample .start = { pausedSample with isRunning := true } :=
  (start_spec pausedSample).2.2.1 (by decide)

/-- C5: EMOM TICK.  For every EMOM-mode state not in intro with positive
totalMinutes and delta at least 0, the minute arithmetic uses a fixed 60000ms
per minute and never consults the stored intervalTime:
minute = floor((currentTime + delta) / 60000) + 1; past totalMinutes the state
clamps to totalMinutes * 60000 with isRunning = false and
currentMinute = totalMinutes, else the minute is stored.  In particular with
totalMinutes 3 (and intervalTime 37 in the sample, showing the setting is
ignored): at 179999 minute 3 still running, at 180000 stopped at 180000 with
minute 3. -/
theorem emom_tick_spec (s : TimerState) (delta : Int)
    (hm : s.mode = .emom) (hi : s.isInCountdownIntro = false)
    (hn : 1 ≤ s.emom.totalMinutes) (hd : 0 ≤ delta) :
    (if jsFloorDiv (s.currentTime + delta) 60000 + 1 > s.emom.totalMinutes then
       timerReducer s (.tick delta) =
         { s with
           currentTime := s.emom.totalMinutes * 60000
           isRunning := false
           currentMinute := s.emom.totalMinutes }
     else
       timerReducer s (.tick delta) =
         { s with
           currentTime := s.currentTime + delta
           currentMinute := jsFloorDiv (s.currentTime + delta) 60000 + 1 }) ∧
    ((timerReducer emomSample (.tick 179999)).currentMinute = 3 ∧
     (timerReducer emomSample (.tick 179999)).isRunning = true ∧
     (timerReducer emomSample (.tick 180000)).isRunning = false ∧
     (timerReducer emomSample (.tick 180000)).currentTime = 180000 ∧
     (timerReducer emomSample (.tick 180000)).currentMinute = 3) := by
  refine ⟨?_, by decide⟩
  by_cases hc : jsFloorDiv (s.currentTime + delta) 60000 + 1 > s.emom.totalMinutes
  · rw [if_pos hc, tick_emom_eq s delta hi hm, if_pos hc]
  · rw [if_neg hc, tick_emom_eq s delta hi hm, if_neg hc]

/-- C5 witness: the general EMOM equation instantiated at the sample state
with delta 179999. -/
theorem emom_tick_spec_witness :
    (timerReducer emomSample (.tick 179999)).currentMinute = 3 ∧
    (timerReducer emomSample (.tick 179999)).isRunning = true :=
  ⟨(emom_tick_spec emomSample 179999 rfl rfl (by decide) (by decide)).2.1,
   (emom_tick_spec emomSample 179999 rfl rfl (by decide) (by decide)).2.2.1⟩

/-- C7: SET_MODE preserves all four settings objects, so switching from mode A
to mode B and back to A leaves every settings object (in particular mode A's)
exactly as it was before leaving A. -/
theorem setMode_preserves_settings (s : TimerState) (a b : TimerMode) :
    ((timerReducer s (.setMode a)).countdown = s.countdown ∧
     (timerReducer s (.setMode a)).tabata = s.tabata ∧
     (timerReducer s (.setMode a)).emom = s.emom ∧
     (timerReducer s (.setMode a)).amrap = s.amrap) ∧
    ((timerReducer (timerReducer (timerReducer s (.setMode a)) (.setMode b))
        (.setMode a)).countdown = s.countdown ∧
     (timerReducer (timerReducer (timerReducer s (.setMode a)) (.setMode b))
        (.setMode a)).tabata = s.tabata ∧
     (timerReducer (timerReducer (timerReducer s (.setMode a)) (.setMode b))
        (.setMode a)).emom = s.emom ∧
     (timerReducer (timerReducer (timerReducer s (.setMode a)) (.setMode b))
        (.setMode a)).amrap = s.amrap) :=
  ⟨⟨rfl, rfl, rfl, rfl⟩, ⟨rfl, rfl, rfl, rfl⟩⟩

/-- C10: dispatching Start to a state already in the intro (running, in intro,
currentTime = 0, positive countdownIntro, mode neither clock nor stopwatch)
resets introTimeRemaining to countdownIntro * 1000, discarding intro progress. -/
theorem start_restarts_intro (s : TimerState)
    (hrun : s.isRunning = true) (hin : s.isInCountdownIntro = true)
    (ht : s.currentTime = 0) (hci : 0 < s.countdownIntro)
    (hc : s.mode ≠ .clock) (hsw : s.mode ≠ .stopwatch) :
    timerReducer s .start =
      { s with
        isRunning := true
        isInCountdownIntro := true
        introTimeRemaining := s.countdownIntro * 1000 } := by
  rw [start_eq, if_pos ⟨hc, hsw, hci, ht⟩]

/-- C10 witness: Start delivered 2000ms into the 5000ms intro restarts the
intro at 5000ms. -/
theorem start_restarts_intro_witness :
    timerReducer midIntroSample .start =
      { midIntroSample with
        isRunning := true
        isInCountdownIntro := true
        introTimeRemaining := 5000 } :=
  start_restarts_intro midIntroSample rfl rfl rfl (by decide) (by decide) (by decide)

theorem mul_le_iff_lt_fdiv_add_one {a b c : Int} (hb : 0 < b) :
    c * b ≤ a ↔ c < jsFloorDiv a b + 1 := by
  unfold jsFloorDiv
  rw [Int.fdiv_eq_ediv _ hb.le, Int.lt_add_one_iff]
  exact (Int.le_ediv_iff_mul_le hb).symm

/-- C2: completion boundaries.  For each bounded mode (countdown, tabata, emom,
amrap) with positive-integer settings: a Tick with non-negative delta that
carries elapsed time to or past the mode's boundary leaves currentTime equal
to the boundary exactly with isRunning = false, and from that completed state
every further Tick with non-negative delta is a no-op. -/
theorem completion_spec (s : TimerState) (d1 d2 : Int)
    (hb : boundedMode s.mode) (hp : posSettings s) (hi : s.isInCountdownIntro = false)
    (h1 : 0 ≤ d1) (h2 : 0 ≤ d2)
    (hcross : modeBoundary s ≤ s.currentTime + d1) :
    (timerReducer s (.tick d1)).currentTime = modeBoundary s ∧
    (timerReducer s (.tick d1)).isRunning = false ∧
    timerReducer (timerReducer s (.tick d1)) (.tick d2) = timerReducer s (.tick d1) := by
  obtain ⟨hcd, hw, hr, hn, hmin, ham⟩ := hp
  obtain ⟨mo, run, ct, cd, tb, em, am, cr, wp, cm, ci, inIntro, rem⟩ := s
  subst hi
  dsimp only at hcd hw hr hn hmin ham
  simp only [boundedMode] at hb
  rcases hb with hm | hm | hm | hm <;> subst hm
  · -- countdown
    dsimp only [modeBoundary] at hcross ⊢
    have e1 : timerReducer ⟨.countdown, run, ct, cd, tb, em, am, cr, wp, cm, ci, false, rem⟩
        (.tick d1) =
        ⟨.countdown, false, cd.totalTime * 1000, cd, tb, em, am, cr, wp, cm, ci, false, rem⟩ := by
      rw [tick_countdown_eq ⟨.countdown, run, ct, cd, tb, em, am, cr, wp, cm, ci, false, rem⟩
        d1 rfl rfl, if_pos (by omega : cd.totalTime * 1000 - (ct + d1) ≤ 0)]
    refine ⟨by rw [e1], by rw [e1], ?_⟩
    rw [e1, tick_countdown_eq
      ⟨.countdown, false, cd.totalTime * 1000, cd, tb, em, am, cr, wp, cm, ci, false, rem⟩
      d2 rfl rfl, if_pos (by omega : cd.totalTime * 1000 - (cd.totalTime * 1000 + d2) ≤ 0)]
  · -- tabata
    dsimp only [modeBoundary] at hcross ⊢
    have hcy : 0 < (tb.workTime + tb.restTime) * 1000 := by omega
    have hcond1 : jsFloorDiv (ct + d1) ((tb.workTime + tb.restTime) * 1000) + 1 > tb.rounds :=
      (mul_le_iff_lt_fdiv_add_one hcy).mp hcross
    have e1 : timerReducer ⟨.tabata, run, ct, cd, tb, em, am, cr, wp, cm, ci, false, rem⟩
        (.tick d1) =
        ⟨.tabata, false, tb.rounds * ((tb.workTime + tb.restTime) * 1000), cd, tb, em, am,
          tb.rounds, false, cm, ci, false, rem⟩ := by
      rw [tick_tabata_eq ⟨.tabata, run, ct, cd, tb, em, am, cr, wp, cm, ci, false, rem⟩
        d1 rfl rfl, if_pos hcond1]
    have hcond2 : jsFloorDiv (tb.rounds * ((tb.workTime + tb.restTime) * 1000) + d2)
        ((tb.workTime + tb.restTime) * 1000) + 1 > tb.rounds :=
      (mul_le_iff_lt_fdiv_add_one hcy).mp (le_add_of_nonneg_right h2)
    refine ⟨by rw [e1], by rw [e1], ?_⟩
    rw [e1, tick_tabata_eq
      ⟨.tabata, false, tb.rounds * ((tb.workTime + tb.restTime) * 1000), cd, tb, em, am,
        tb.rounds, false, cm, ci, false, rem⟩ d2 rfl rfl, if_pos hcond2]
  · -- emom
    dsimp only [modeBoundary] at hcross ⊢
    have hcy : (0 : Int) < 60000 := by norm_num
    have hcond1 : jsFloorDiv (ct + d1) 60000 + 1 > em.totalMinutes :=
      (mul_le_iff_lt_fdiv_add_one hcy).mp hcross
    have e1 : timerReducer ⟨.emom, run, ct, cd, tb, em, am, cr, wp, cm, ci, false, rem⟩
        (.tick d1) =
        ⟨.emom, false, em.totalMinutes * 60000, cd, tb, em, am, cr, wp, em.totalMinutes, ci,
          false, rem⟩ := by
      rw [tick_emom_eq ⟨.emom, run, ct, cd, tb, em, am, cr, wp, cm, ci, false, rem⟩
        d1 rfl rfl, if_pos hcond1]
    have hcond2 : jsFloorDiv (em.totalMinutes * 60000 + d2) 60000 + 1 > em.totalMinutes :=
      (mul_le_iff_lt_fdiv_add_one hcy).mp (le_add_of_nonneg_right h2)
    refine ⟨by rw [e1], by rw [e1], ?_⟩
    rw [e1, tick_emom_eq
      ⟨.emom, false, em.totalMinutes * 60000, cd, tb, em, am, cr, wp, em.totalMinutes, ci,
        false, rem⟩ d2 rfl rfl, if_pos hcond2]
  · -- amrap
    dsimp only [modeBoundary] at hcross ⊢
    have e1 : timerReducer ⟨.amrap, run, ct, cd, tb, em, am, cr, wp, cm, ci, false, rem⟩
        (.tick d1) =
        ⟨.amrap, false, am.totalTime * 1000, cd, tb, em, am, cr, wp, cm, ci, false, rem⟩ := by
      rw [tick_amrap_eq ⟨.amrap, run, ct, cd, tb, em, am, cr, wp, cm, ci, false, rem⟩
        d1 rfl rfl, if_pos (by omega : ct + d1 ≥ am.totalTime * 1000)]
    refine ⟨by rw [e1], by rw [e1], ?_⟩
    rw [e1, tick_amrap_eq
      ⟨.amrap, false, am.totalTime * 1000, cd, tb, em, am, cr, wp, cm, ci, false, rem⟩
      d2 rfl rfl, if_pos (by omega : am.totalTime * 1000 + d2 ≥ am.totalTime * 1000)]

/-- C2 witness: the Tabata sample (20/10/2) hits its 60000ms boundary with a
single 60000ms Tick and a further 100ms Tick is a no-op. -/
theorem completion_spec_witness :
    (timerReducer tabataSample (.tick 60000)).currentTime = modeBoundary tabataSample ∧
    (timerReducer tabataSample (.tick 60000)).isRunning = false ∧
    timerReducer (timerReducer tabataSample (.tick 60000)) (.tick 100) =
      timerReducer tabataSample (.tick 60000) :=
  completion_spec tabataSample 60000 100 (by decide) (by decide) rfl (by decide) (by decide)
    (by decide)

/-- C6 counterexample: the claim says a negative or zero delta never decreases
currentTime, but a negative delta is passed straight through the arithmetic:
in stopwatch mode at 1000ms, Tick(-500) yields 500ms. -/
theorem negative_tick_counterexample :
    (-500 : Int) ≤ 0 ∧
    (timerReducer stoppedStopwatch (.tick (-500))).currentTime <
      stoppedStopwatch.currentTime := by decide

/-- C6 (amended): for every state not in intro, a Tick with delta = 0 either
leaves currentTime unchanged or clamps it exactly to the mode's completion
boundary with isRunning = false; a negative delta is passed through
arithmetically and can decrease currentTime. -/
theorem zero_tick_no_decrease (s : TimerState) (hi : s.isInCountdownIntro = false) :
    (timerReducer s (.tick 0)).currentTime = s.currentTime ∨
    ((timerReducer s (.tick 0)).currentTime = modeBoundary s ∧
     (timerReducer s (.tick 0)).isRunning = false) := by
  obtain ⟨mo, run, ct, cd, tb, em, am, cr, wp, cm, ci, inIntro, rem⟩ := s
  subst hi
  cases mo
  · left
    rw [tick_clock_eq ⟨.clock, run, ct, cd, tb, em, am, cr, wp, cm, ci, false, rem⟩ 0 rfl rfl]
    show ct + 0 = ct
    omega
  · left
    rw [tick_stopwatch_eq ⟨.stopwatch, run, ct, cd, tb, em, am, cr, wp, cm, ci, false, rem⟩
      0 rfl rfl]
    show ct + 0 = ct
    omega
  · by_cases hc : cd.totalTime * 1000 - (ct + 0) ≤ 0
    · right
      rw [tick_countdown_eq ⟨.countdown, run, ct, cd, tb, em, am, cr, wp, cm, ci, false, rem⟩
        0 rfl rfl, if_pos hc]
      exact ⟨rfl, rfl⟩
    · left
      rw [tick_countdown_eq ⟨.countdown, run, ct, cd, tb, em, am, cr, wp, cm, ci, false, rem⟩
        0 rfl rfl, if_neg hc]
      show ct + 0 = ct
      omega
  · by_cases hc : jsFloorDiv (ct + 0) ((tb.workTime + tb.restTime) * 1000) + 1 > tb.rounds
    · right
      rw [tick_tabata_eq ⟨.tabata, run, ct, cd, tb, em, am, cr, wp, cm, ci, false, rem⟩
        0 rfl rfl, if_pos hc]
      exact ⟨rfl, rfl⟩
    · left
      rw [tick_tabata_eq ⟨.tabata, run, ct, cd, tb, em, am, cr, wp, cm, ci, false, rem⟩
        0 rfl rfl, if_neg hc]
      show ct + 0 = ct
      omega
  · by_cases hc : jsFloorDiv (ct + 0) 60000 + 1 > em.totalMinutes
    · right
      rw [tick_emom_eq ⟨.emom, run, ct, cd, tb, em, am, cr, wp, cm, ci, false, rem⟩
        0 rfl rfl, if_pos hc]
      exact ⟨rfl, rfl⟩
    · left
      rw [tick_emom_eq ⟨.emom, run, ct, cd, tb, em, am, cr, wp, cm, ci, false, rem⟩
        0 rfl rfl, if_neg hc]
      show ct + 0 = ct
      omega
  · by_cases hc : ct + 0 ≥ am.totalTime * 1000
    · right
      rw [tick_amrap_eq ⟨.amrap, run, ct, cd, tb, em, am, cr, wp, cm, ci, false, rem⟩
        0 rfl rfl, if_pos hc]
      exact ⟨rfl, rfl⟩
    · left
      rw [tick_amrap_eq ⟨.amrap, run, ct, cd, tb, em, am, cr, wp, cm, ci, false, rem⟩
        0 rfl rfl, if_neg hc]
      show ct + 0 = ct
      omega

/-- C6 witness: the amended statement instantiated at the stopped stopwatch. -/
theorem zero_tick_no_decrease_witness :
    (timerReducer stoppedStopwatch (.tick 0)).currentTime = stoppedStopwatch.currentTime ∨
    ((timerReducer stoppedStopwatch (.tick 0)).currentTime = modeBoundary stoppedStopwatch ∧
     (timerReducer stoppedStopwatch (.tick 0)).isRunning = false) :=
  zero_tick_no_decrease stoppedStopwatch rfl

/-- C8 counterexample: from a state whose cached fields are in range (round 5
of 8, positive settings everywhere), the settings command SET_TABATA with the
positive-integer payload workTime 20, restTime 10, rounds 2 yields a state
with currentRound 5 but rounds 2 — the range invariant is not preserved by
every reducer command. -/
theorem range_inv_counterexample :
    (1 ≤ roundSample.currentRound ∧ roundSample.currentRound ≤ roundSample.tabata.rounds ∧
     1 ≤ roundSample.currentMinute ∧
     roundSample.currentMinute ≤ roundSample.emom.totalMinutes ∧
     posSettings roundSample) ∧
    posSettings (timerReducer roundSample (.setTabata ⟨20, 10, 2⟩)) ∧
    ¬ ((timerReducer roundSample (.setTabata ⟨20, 10, 2⟩)).currentRound ≤
        (timerReducer roundSample (.setTabata ⟨20, 10, 2⟩)).tabata.rounds) := by decide

/-- C8 (amended): with positive-integer settings and non-negative elapsed
time, every reducer command keeps currentRound in [1, rounds] and
currentMinute in [1, totalMinutes], provided Tick deltas are non-negative,
settings payloads are positive, and a Tabata or EMOM settings replacement
does not lower rounds below currentRound or totalMinutes below
currentMinute. -/
theorem range_inv_preserved (s : TimerState) (a : TimerAction)
    (hs : rangeInv s) (ha : admissible s a) : rangeInv (timerReducer s a) := by
  unfold rangeInv posSettings at hs ⊢
  obtain ⟨hct, hr1, hr2, hm1, hm2, hcd, hw, hrr, hn, hmin, ham⟩ := hs
  obtain ⟨mo, run, ct, cd, tb, em, am, cr, wp, cm, ci, inIntro, rem⟩ := s
  dsimp only at hct hr1 hr2 hm1 hm2 hcd hw hrr hn hmin ham ⊢
  cases a
  case setMode m =>
    simp only [timerReducer]
    try dsimp only
    omega
  case start =>
    simp only [timerReducer]
    split <;> (try dsimp only) <;> omega
  case stop =>
    simp only [timerReducer]
    try dsimp only
    omega
  case reset =>
    simp only [timerReducer]
    try dsimp only
    omega
  case tick delta =>
    simp only [admissible] at ha
    try dsimp only at ha
    cases inIntro
    · cases mo
      · rw [tick_clock_eq ⟨.clock, run, ct, cd, tb, em, am, cr, wp, cm, ci, false, rem⟩
          delta rfl rfl]
        try dsimp only
        omega
      · rw [tick_stopwatch_eq ⟨.stopwatch, run, ct, cd, tb, em, am, cr, wp, cm, ci, false, rem⟩
          delta rfl rfl]
        try dsimp only
        omega
      · rw [tick_countdown_eq ⟨.countdown, run, ct, cd, tb, em, am, cr, wp, cm, ci, false, rem⟩
          delta rfl rfl]
        split <;> (try dsimp only) <;> omega
      · rw [tick_tabata_eq ⟨.tabata, run, ct, cd, tb, em, am, cr, wp, cm, ci, false, rem⟩
          delta rfl rfl]
        dsimp only
        have hmul : 0 ≤ tb.rounds * ((tb.workTime + tb.restTime) * 1000) :=
          mul_nonneg (by omega) (by omega)
        have hdiv : 0 ≤ jsFloorDiv (ct + delta) ((tb.workTime + tb.restTime) * 1000) := by
          unfold jsFloorDiv
          rw [Int.fdiv_eq_ediv _ (by omega)]
          exact Int.ediv_nonneg (by omega) (by omega)
        split <;> (try dsimp only) <;> omega
      · rw [tick_emom_eq ⟨.emom, run, ct, cd, tb, em, am, cr, wp, cm, ci, false, rem⟩
          delta rfl rfl]
        dsimp only
        have hdiv : 0 ≤ jsFloorDiv (ct + delta) 60000 := by
          unfold jsFloorDiv
          rw [Int.fdiv_eq_ediv _ (by omega)]
          exact Int.ediv_nonneg (by omega) (by omega)
        split <;> (try dsimp only) <;> omega
      · rw [tick_amrap_eq ⟨.amrap, run, ct, cd, tb, em, am, cr, wp, cm, ci, false, rem⟩
          delta rfl rfl]
        split <;> (try dsimp only) <;> omega
    · rw [tick_intro_eq ⟨mo, run, ct, cd, tb, em, am, cr, wp, cm, ci, true, rem⟩ delta rfl]
      split <;> (try dsimp only) <;> omega
  case setCountdown c =>
    simp only [admissible] at ha
    try dsimp only at ha
    simp only [timerReducer]
    try dsimp only
    omega
  case setTabata t =>
    simp only [admissible] at ha
    try dsimp only at ha
    simp only [timerReducer]
    try dsimp only
    omega
  case setEmom e2 =>
    simp only [admissible] at ha
    try dsimp only at ha
    simp only [timerReducer]
    try dsimp only
    omega
  case setAmrap a2 =>
    simp only [admissible] at ha
    try dsimp only at ha
    simp only [timerReducer]
    try dsimp only
    omega
  case setCountdownIntro n =>
    simp only [timerReducer]
    try dsimp only
    omega

/-- C8 witness: the amended invariant applied to the initial state with a
zero-delta Tick. -/
theorem range_inv_preserved_witness : rangeInv (timerReducer initialState (.tick 0)) :=
  range_inv_preserved initialState (.tick 0) (by decide) (by decide)

/-- C9: the TICK handler has no isRunning guard.  For every stopped state not
in intro, a Tick computes the same currentTime, currentRound, isWorkPhase and
currentMinute as it would for the same state with isRunning = true; in
particular a stopped stopwatch still advances currentTime by delta. -/
theorem tick_no_isRunning_guard (s : TimerState) (delta : Int)
    (hrun : s.isRunning = false) (hi : s.isInCountdownIntro = false) :
    ((timerReducer s (.tick delta)).currentTime =
       (timerReducer { s with isRunning := true } (.tick delta)).currentTime ∧
     (timerReducer s (.tick delta)).currentRound =
       (timerReducer { s with isRunning := true } (.tick delta)).currentRound ∧
     (timerReducer s (.tick delta)).isWorkPhase =
       (timerReducer { s with isRunning := true } (.tick delta)).isWorkPhase ∧
     (timerReducer s (.tick delta)).currentMinute =
       (timerReducer { s with isRunning := true } (.tick delta)).currentMinute) ∧
    (s.mode = .stopwatch →
      timerReducer s (.tick delta) = { s with currentTime := s.currentTime + delta }) := by
  obtain ⟨mo, run, ct, cd, tb, em, am, cr, wp, cm, ci, inIntro, rem⟩ := s
  subst hrun hi
  constructor
  · cases mo
    · rw [tick_clock_eq ⟨.clock, false, ct, cd, tb, em, am, cr, wp, cm, ci, false, rem⟩
          delta rfl rfl,
        tick_clock_eq ⟨.clock, true, ct, cd, tb, em, am, cr, wp, cm, ci, false, rem⟩
          delta rfl rfl]
      exact ⟨rfl, rfl, rfl, rfl⟩
    · rw [tick_stopwatch_eq ⟨.stopwatch, false, ct, cd, tb, em, am, cr, wp, cm, ci, false, rem⟩
          delta rfl rfl,
        tick_stopwatch_eq ⟨.stopwatch, true, ct, cd, tb, em, am, cr, wp, cm, ci, false, rem⟩
          delta rfl rfl]
      exact ⟨rfl, rfl, rfl, rfl⟩
    · rw [tick_countdown_eq ⟨.countdown, false, ct, cd, tb, em, am, cr, wp, cm, ci, false, rem⟩
          delta rfl rfl,
        tick_countdown_eq ⟨.countdown, true, ct, cd, tb, em, am, cr, wp, cm, ci, false, rem⟩
          delta rfl rfl]
      by_cases hc : cd.totalTime * 1000 - (ct + delta) ≤ 0
      · rw [if_pos hc, if_pos hc]
        exact ⟨rfl, rfl, rfl, rfl⟩
      · rw [if_neg hc, if_neg hc]
        exact ⟨rfl, rfl, rfl, rfl⟩
    · rw [tick_tabata_eq ⟨.tabata, false, ct, cd, tb, em, am, cr, wp, cm, ci, false, rem⟩
          delta rfl rfl,
        tick_tabata_eq ⟨.tabata, true, ct, cd, tb, em, am, cr, wp, cm, ci, false, rem⟩
          delta rfl rfl]
      by_cases hc : jsFloorDiv (ct + delta) ((tb.workTime + tb.restTime) * 1000) + 1 > tb.rounds
      · rw [if_pos hc, if_pos hc]
        exact ⟨rfl, rfl, rfl, rfl⟩
      · rw [if_neg hc, if_neg hc]
        exact ⟨rfl, rfl, rfl, rfl⟩
    · rw [tick_emom_eq ⟨.emom, false, ct, cd, tb, em, am, cr, wp, cm, ci, false, rem⟩
          delta rfl rfl,
        tick_emom_eq ⟨.emom, true, ct, cd, tb, em, am, cr, wp, cm, ci, false, rem⟩
          delta rfl rfl]
      by_cases hc : jsFloorDiv (ct + delta) 60000 + 1 > em.totalMinutes
      · rw [if_pos hc, if_pos hc]
        exact ⟨rfl, rfl, rfl, rfl⟩
      · rw [if_neg hc, if_neg hc]
        exact ⟨rfl, rfl, rfl, rfl⟩
    · rw [tick_amrap_eq ⟨.amrap, false, ct, cd, tb, em, am, cr, wp, cm, ci, false, rem⟩
          delta rfl rfl,
        tick_amrap_eq ⟨.amrap, true, ct, cd, tb, em, am, cr, wp, cm, ci, false, rem⟩
          delta rfl rfl]
      by_cases hc : ct + delta ≥ am.totalTime * 1000
      · rw [if_pos hc, if_pos hc]
        exact ⟨rfl, rfl, rfl, rfl⟩
      · rw [if_neg hc, if_neg hc]
        exact ⟨rfl, rfl, rfl, rfl⟩
  · intro hmo
    dsimp only at hmo
    subst hmo
    rw [tick_stopwatch_eq ⟨.stopwatch, false, ct, cd, tb, em, am, cr, wp, cm, ci, false, rem⟩
      delta rfl rfl]

/-- C9 witness: a Tick of 250ms delivered to the stopped stopwatch still
advances currentTime. -/
theorem tick_no_isRunning_guard_witness :
    timerReducer stoppedStopwatch (.tick 250) =
      { stoppedStopwatch with currentTime := stoppedStopwatch.currentTime + 250 } :=
  (tick_no_isRunning_guard stoppedStopwatch 250 rfl rfl).2 rfl
